import Mathlib

/-!
Verification of the flashcard-generation and deck-advancement workflow of the
AI micro-learning flashcard application.

The embedding translates the application source:
- `src/App.tsx` — the application state (book content, flashcards, loading
  flag, error) and the operations `handleNewCardRequest` (split at its single
  `await` point into a start and a completion step), `handleFileUpload`,
  `handleReset`, and the auto-generation `useEffect`;
- the deck component (`FlashcardDeck`) — the `currentIndex` cursor,
  `handleSwipe`, and the replenishment `useEffect`;
- `src/services/geminiService.ts` — the document excerpt placed into the
  request prompt;
- the upload component (`FileUploadScreen`) / `parseFile` — extension
  extraction and parser dispatch;
- `src/utils/styleUtils.ts` — `moodStyles`, `defaultStyle`,
  `getDynamicCardStyles`.

JavaScript strings are modelled as Lean `String` (or `List Char` where
character-level reasoning is needed); a possibly-absent (`undefined`/`null`)
string is `Option String`, and JavaScript truthiness of such a value is
`jsTruthy` (absent and the empty string are the falsy cases).
-/

namespace AIFlashcards

/-- JavaScript truthiness of a possibly-absent string: `undefined`/`null`
and `""` are falsy, every other string is truthy. -/
def jsTruthy : Option String → Bool
  | none => false
  | some s => decide (s ≠ "")

/-- `FlashcardData` from `src/types.ts`: id, title, content plus the style
fields category, mood, icon. The id (`crypto.randomUUID()` in the source) is
modelled as a `Nat` drawn from a fresh-id counter. -/
structure FlashcardData where
  id : Nat
  title : String
  content : String
  category : String
  mood : String
  icon : String
deriving DecidableEq, Repr

/-- The parsed JSON object returned by `generateFlashcard`. JSON carries no
completeness guarantee, so each of the five expected fields may be absent. -/
structure NewCardData where
  title : Option String
  content : Option String
  category : Option String
  mood : Option String
  icon : Option String
deriving DecidableEq, Repr

/-- Outcome of one `generateFlashcard` call as observed by the caller in
`App.tsx`: the promise resolves with a parsed payload (`ok`; `ok none` models
a payload that is not an object, such as JSON `null`), or rejects with an
error message (`err`). -/
inductive GenResult where
  | ok (data : Option NewCardData)
  | err (message : String)
deriving DecidableEq, Repr

/-- The truthiness test `newCardData && newCardData.title && newCardData.content
&& newCardData.category && newCardData.mood && newCardData.icon` from
`src/App.tsx` line 24. Note it checks only presence/non-emptiness of the five
fields; it does not constrain the value of `mood`. -/
def isCompleteCard : Option NewCardData → Bool
  | none => false
  | some d => jsTruthy d.title && jsTruthy d.content && jsTruthy d.category
      && jsTruthy d.mood && jsTruthy d.icon

/-- The error message thrown in `App.tsx` when the response is incomplete. -/
def incompleteErrorMessage : String :=
  "AI failed to generate a complete flashcard. Please try again."

/-- The arguments of an in-flight `generateFlashcard(bookContent,
existingTitles)` call. -/
structure PendingRequest where
  doc : String
  excludedTitles : List String
deriving DecidableEq, Repr

/-- The `App` component state from `src/App.tsx`: `bookContent`, `flashcards`,
`isLoading`, `error`, extended with `pending` (the in-flight request, if any),
`netCalls` (a counter of generation requests actually issued, for the dedup
property) and `nextId` (the fresh-id source standing for `crypto.randomUUID`). -/
structure AppState where
  bookContent : Option String
  flashcards : List FlashcardData
  isLoading : Bool
  error : Option String
  pending : Option PendingRequest
  netCalls : Nat
  nextId : Nat
deriving DecidableEq, Repr

/-- The card built in `App.tsx` lines 25-28 from a complete response:
`\x7b id: crypto.randomUUID(), ...newCardData \x7d`. -/
def mkFlashcard (id : Nat) (d : NewCardData) : FlashcardData :=
  { id := id
    title := d.title.getD ""
    content := d.content.getD ""
    category := d.category.getD ""
    mood := d.mood.getD ""
    icon := d.icon.getD "" }

/-- The synchronous head of `handleNewCardRequest` (`App.tsx` lines 15-22), up
to the `await`: the guard `if (!bookContent || isLoading) return;`, then
`setIsLoading(true)`, `setError(null)`, the computation of `existingTitles`
from the current flashcards, and the issuing of the network call (recorded in
`pending` and counted in `netCalls`). -/
def handleNewCardRequestStart (s : AppState) : AppState :=
  if !(jsTruthy s.bookContent) || s.isLoading then s
  else
    { s with
      isLoading := true
      error := none
      pending := some { doc := s.bookContent.getD ""
                        excludedTitles := s.flashcards.map (fun c => c.title) }
      netCalls := s.netCalls + 1 }

/-- The continuation of `handleNewCardRequest` (`App.tsx` lines 24-38) once
the `generateFlashcard` promise settles: on a complete payload, append the new
card via the functional update `setFlashcards(prev => [...prev, newFlashcard])`;
on an incomplete payload, throw and catch the incompleteness error; on a
rejected promise, catch and store its message; in all cases the `finally`
block clears `isLoading`. The continuation runs against whatever state is
current when the promise settles — the source performs no check that the
request still belongs to the current book. -/
def handleNewCardRequestComplete (s : AppState) (resp : GenResult) : AppState :=
  match resp with
  | GenResult.ok (some d) =>
    if isCompleteCard (some d) then
      { s with
        flashcards := s.flashcards ++ [mkFlashcard s.nextId d]
        nextId := s.nextId + 1
        isLoading := false
        pending := none }
    else
      { s with
        error := some incompleteErrorMessage
        isLoading := false
        pending := none }
  | GenResult.ok none =>
    { s with
      error := some incompleteErrorMessage
      isLoading := false
      pending := none }
  | GenResult.err msg =>
    { s with error := some msg, isLoading := false, pending := none }

/-- `handleFileUpload` (`App.tsx` lines 48-52): set the book content, reset
the flashcards for the new book, clear the error. -/
def handleFileUpload (s : AppState) (content : String) : AppState :=
  { s with bookContent := some content, flashcards := [], error := none }

/-- `handleReset` (`App.tsx` lines 54-60): after the user confirms, clear the
book content, the flashcards and the error. Note it does not touch
`isLoading` or the in-flight request. -/
def handleReset (s : AppState) (confirmed : Bool) : AppState :=
  if confirmed then
    { s with bookContent := none, flashcards := [], error := none }
  else s

/-- The condition of the auto-generation `useEffect` in `App.tsx` lines 41-46:
`bookContent && flashcards.length === 0 && !isLoading`. -/
def appEffectCond (s : AppState) : Bool :=
  jsTruthy s.bookContent && s.flashcards.length == 0 && !s.isLoading

/-- One run of the auto-generation `useEffect` in `App.tsx`: when its
condition holds it invokes `handleNewCardRequest` (its synchronous head). The
effect re-runs whenever any of its dependencies changes, with no user
action involved. -/
def appEffect (s : AppState) : AppState :=
  if appEffectCond s then handleNewCardRequestStart s else s

/-- The condition of the replenishment `useEffect` in the deck component:
`currentIndex >= cards.length && !isLoading && cards.length > 0`. -/
def deckEffectCond (s : AppState) (currentIndex : Nat) : Bool :=
  decide (currentIndex ≥ s.flashcards.length) && !s.isLoading
    && decide (s.flashcards.length > 0)

/-- Combined system state: the `App` component state together with the deck
currentIndex cursor of the deck component (`useState(0)` in `FlashcardDeck`). -/
structure SysState where
  app : AppState
  cursor : Nat
deriving DecidableEq, Repr

/-- The operations a session may perform on the combined state while a
document is loaded: advancing the cursor (`handleSwipe`), starting a
generation request, and the settling of an issued request. -/
inductive SysOp where
  | advance
  | reqStart
  | reqComplete (resp : GenResult)
deriving DecidableEq, Repr

/-- Recognizer for the `advance` operation (used to count swipes). -/
def isAdvance : SysOp → Bool
  | SysOp.advance => true
  | _ => false

/-- One step of the combined system. `advance` is `handleSwipe` from the deck
component: `setCurrentIndex(prev => prev + 1)`; the request operations act on
the `App` state and leave the cursor untouched. -/
def sysStep (s : SysState) : SysOp → SysState
  | SysOp.advance => { s with cursor := s.cursor + 1 }
  | SysOp.reqStart => { s with app := handleNewCardRequestStart s.app }
  | SysOp.reqComplete resp => { s with app := handleNewCardRequestComplete s.app resp }

/-- Run a list of operations from a state, in order. -/
def sysRun (s : SysState) : List SysOp → SysState
  | [] => s
  | op :: ops => sysRun (sysStep s op) ops

/-- A run of consecutive successful generation cycles: for each payload in
the list, start a request and let it settle successfully with that payload. -/
def sessionRun (s : SysState) : List NewCardData → SysState
  | [] => s
  | d :: ds =>
      sessionRun (sysStep (sysStep s SysOp.reqStart) (SysOp.reqComplete (GenResult.ok (some d)))) ds

/-! ### Document excerpt sent to the Generator (`src/services/geminiService.ts`) -/

/-- The fixed character budget of the document excerpt: the literal `32000`
in `bookContent.substring(0, 32000)` in `generateFlashcard`. -/
def MAX_PROMPT_CHARS : Nat := 32000

/-- The excerpt of the document text placed into the request prompt:
`bookContent.substring(0, 32000)` in `generateFlashcard`
(`src/services/geminiService.ts` line 74), with text modelled as a character
sequence. -/
def promptExcerpt (bookContent : List Char) : List Char :=
  bookContent.take MAX_PROMPT_CHARS

/-! ### Upload boundary: extension extraction and parser dispatch
(`parseFile` in the upload component and in the file-parser module) -/

/-- JavaScript `String.prototype.split` with a one-character separator: the
list of separator-delimited groups; never empty, and the empty string yields
`[[]]`, exactly as in JavaScript. -/
def splitOnChar (sep : Char) : List Char → List (List Char)
  | [] => [[]]
  | c :: cs =>
    match splitOnChar sep cs with
    | [] => [[]]
    | g :: gs => if c = sep then [] :: g :: gs else (c :: g) :: gs

/-- The file-type computation of `parseFile`: split the file name on the dot
character, pop the last component, lowercase it. For a name without a dot
this is the whole name. -/
def fileTypeOf (name : String) : String :=
  String.mk (((splitOnChar '.' name.data).getLastD []).map Char.toLower)

/-- The extension of a filename as the specification words it (a file "with
one of four extensions `.txt`, `.pdf`, `.docx`, `.md`, case-insensitive
match"): the lowercased suffix after the last dot, absent when the name
contains no dot. This definition follows the specification wording and is
compared against `fileTypeOf`, which is translated from the source. -/
def specFileExtension (name : String) : Option String :=
  if (splitOnChar '.' name.data).length ≥ 2 then some (fileTypeOf name) else none

/-- The four file types handled by the `switch` in `parseFile`. -/
def supportedFileTypes : List String := ["txt", "pdf", "docx", "md"]

/-- The action `parseFile` takes after computing the file type: dispatch to
one of the four parsers, or fail with the unsupported-format error carrying
the computed type. Only the four parser actions read the file or load a
parsing library; `unsupported` throws immediately. -/
inductive ParseAction where
  | txtParse
  | pdfParse
  | docxParse
  | mdParse
  | unsupported (ext : String)
deriving DecidableEq, Repr

/-- The `switch (fileType)` dispatch of `parseFile`: cases `txt`, `pdf`,
`docx`, `md`, and the `default` branch
`throw new Error(unsupported file type message)`. -/
def parseFileDispatch (name : String) : ParseAction :=
  if fileTypeOf name = "txt" then ParseAction.txtParse
  else if fileTypeOf name = "pdf" then ParseAction.pdfParse
  else if fileTypeOf name = "docx" then ParseAction.docxParse
  else if fileTypeOf name = "md" then ParseAction.mdParse
  else ParseAction.unsupported (fileTypeOf name)

/-- Whether a dispatch outcome goes on to attempt parsing (and possibly
library loading / file reads); the unsupported-format failure does not. -/
def invokesParser : ParseAction → Bool
  | ParseAction.unsupported _ => false
  | _ => true

/-! ### Card styling (`src/utils/styleUtils.ts`) -/

/-- `CardDynamicStyle` from `src/utils/styleUtils.ts`. -/
structure CardDynamicStyle where
  background : String
  badgeColor : String
deriving DecidableEq, Repr

/-- The `moodStyles` record from `src/utils/styleUtils.ts`, as the finite map
from mood strings to their style entries; lookup of any other key is absent. -/
def moodStyles (mood : String) : Option CardDynamicStyle :=
  if mood = "energetic" then
    some { background := "bg-gradient-to-br from-amber-500 to-orange-600"
           badgeColor := "bg-amber-400/20 text-amber-200" }
  else if mood = "calm" then
    some { background := "bg-gradient-to-br from-teal-500 to-cyan-600"
           badgeColor := "bg-cyan-400/20 text-cyan-200" }
  else if mood = "serious" then
    some { background := "bg-gradient-to-br from-slate-700 to-slate-800"
           badgeColor := "bg-slate-400/20 text-slate-200" }
  else if mood = "inspirational" then
    some { background := "bg-gradient-to-br from-purple-500 to-indigo-600"
           badgeColor := "bg-purple-400/20 text-purple-200" }
  else if mood = "technical" then
    some { background := "bg-gradient-to-br from-sky-600 to-blue-700"
           badgeColor := "bg-sky-400/20 text-sky-200" }
  else if mood = "creative" then
    some { background := "bg-gradient-to-br from-pink-500 to-rose-600"
           badgeColor := "bg-pink-400/20 text-pink-200" }
  else none

/-- `defaultStyle = moodStyles.serious` from `src/utils/styleUtils.ts`. -/
def defaultStyle : CardDynamicStyle :=
  { background := "bg-gradient-to-br from-slate-700 to-slate-800"
    badgeColor := "bg-slate-400/20 text-slate-200" }

/-- `getDynamicCardStyles(mood?)` from `src/utils/styleUtils.ts`:
`if (mood && moodStyles[mood]) return moodStyles[mood]; return defaultStyle`. -/
def getDynamicCardStyles (mood : Option String) : CardDynamicStyle :=
  if jsTruthy mood then
    match moodStyles (mood.getD "") with
    | some st => st
    | none => defaultStyle
  else defaultStyle

/-- The fixed mood enumeration named by the schema and prompt in
`src/services/geminiService.ts` (and realized as the keys of `moodStyles`). -/
def moodEnumeration : List String :=
  ["energetic", "calm", "serious", "inspirational", "technical", "creative"]

/-! ### Concrete states used by witnesses and counterexamples -/

/-- An idle `App` state with a loaded document and an empty deck. -/
def baseApp : AppState :=
  { bookContent := some "doc"
    flashcards := []
    isLoading := false
    error := none
    pending := none
    netCalls := 0
    nextId := 0 }

/-- The combined state over `baseApp` with the cursor at zero. -/
def baseSys : SysState := { app := baseApp, cursor := 0 }

/-- Two sample complete generation payloads used by concrete instances. -/
def sampleCardA : NewCardData :=
  { title := some "T1", content := some "C1", category := some "K1"
    mood := some "calm", icon := some "I1" }

/-- A second sample complete generation payload. -/
def sampleCardB : NewCardData :=
  { title := some "T2", content := some "C2", category := some "K2"
    mood := some "serious", icon := some "I2" }

/-- A complete generation payload whose mood lies outside the fixed
enumeration. -/
def playfulCardData : NewCardData :=
  { title := some "T1", content := some "Body", category := some "Topic"
    mood := some "playful", icon := some "Star" }

/-! ### Helper lemmas -/

/-- A trigger while a request is already in flight is a no-op. -/
theorem start_of_loading (s : AppState) (h : s.isLoading = true) :
    handleNewCardRequestStart s = s := by
  unfold handleNewCardRequestStart
  rw [h]
  simp

/-- A trigger with no (truthy) document loaded is a no-op. -/
theorem start_of_noDoc (s : AppState) (h : jsTruthy s.bookContent = false) :
    handleNewCardRequestStart s = s := by
  unfold handleNewCardRequestStart
  rw [h]
  simp

/-- Explicit form of the request head when the guard passes. -/
theorem start_spec (s : AppState) (hb : jsTruthy s.bookContent = true)
    (hl : s.isLoading = false) :
    handleNewCardRequestStart s =
      { s with
        isLoading := true
        error := none
        pending := some { doc := s.bookContent.getD ""
                          excludedTitles := s.flashcards.map (fun c => c.title) }
        netCalls := s.netCalls + 1 } := by
  unfold handleNewCardRequestStart
  rw [hb, hl]
  simp

/-- Explicit form of the completion step on a complete successful payload. -/
theorem complete_ok_spec (s : AppState) (d : NewCardData)
    (h : isCompleteCard (some d) = true) :
    handleNewCardRequestComplete s (GenResult.ok (some d)) =
      { s with
        flashcards := s.flashcards ++ [mkFlashcard s.nextId d]
        nextId := s.nextId + 1
        isLoading := false
        pending := none } := by
  simp [handleNewCardRequestComplete, h]

/-- Every request operation leaves the flashcards list intact or appends to
it, and only `advance` moves the cursor, by exactly one. -/
theorem sysStep_extends (s : SysState) (op : SysOp) :
    (∃ t, s.app.flashcards ++ t = (sysStep s op).app.flashcards) ∧
    (sysStep s op).cursor = s.cursor + (if isAdvance op then 1 else 0) := by
  cases op with
  | advance => exact ⟨⟨[], by simp [sysStep]⟩, by simp [sysStep, isAdvance]⟩
  | reqStart =>
    refine ⟨⟨[], ?_⟩, by simp [sysStep, isAdvance]⟩
    simp only [sysStep, List.append_nil]
    unfold handleNewCardRequestStart
    split <;> rfl
  | reqComplete resp =>
    refine ⟨?_, by simp [sysStep, isAdvance]⟩
    cases resp with
    | ok data =>
      cases data with
      | none => exact ⟨[], by simp [sysStep, handleNewCardRequestComplete]⟩
      | some d =>
        by_cases h : isCompleteCard (some d) = true
        · exact ⟨[mkFlashcard s.app.nextId d],
            by simp [sysStep, handleNewCardRequestComplete, h]⟩
        · exact ⟨[], by simp [sysStep, handleNewCardRequestComplete, h]⟩
    | err msg => exact ⟨[], by simp [sysStep, handleNewCardRequestComplete]⟩

/-- Over any run: the initial flashcards list is a left factor of the final
one, and the cursor advances by exactly the number of `advance` operations. -/
theorem sysRun_extends (ops : List SysOp) : ∀ s : SysState,
    (∃ t, s.app.flashcards ++ t = (sysRun s ops).app.flashcards) ∧
    (sysRun s ops).cursor = s.cursor + ops.countP isAdvance := by
  induction ops with
  | nil =>
    intro s
    exact ⟨⟨[], by simp [sysRun]⟩, by simp [sysRun, List.countP_nil]⟩
  | cons op ops ih =>
    intro s
    obtain ⟨⟨t1, ht1⟩, hc1⟩ := sysStep_extends s op
    obtain ⟨⟨t2, ht2⟩, hc2⟩ := ih (sysStep s op)
    constructor
    · refine ⟨t1 ++ t2, ?_⟩
      show s.app.flashcards ++ (t1 ++ t2) = (sysRun (sysStep s op) ops).app.flashcards
      rw [← List.append_assoc, ht1, ht2]
    · show (sysRun (sysStep s op) ops).cursor = s.cursor + List.countP isAdvance (op :: ops)
      rw [hc2, hc1, List.countP_cons]
      cases h : isAdvance op
      · simp [h]
      · simp [h]
        omega



/-! ### Claim theorems -/

/-- C7: for every sequence of `advance` and request operations within a
session, the cards list is append-only — the initial list is literally a left
factor of the final one, so its length never decreases and every entry already
inserted (its id, title and content included) is preserved unchanged — and the
cursor equals its initial value plus exactly one per `advance` call, hence is
non-decreasing and never decremented. -/
theorem C7_append_only_and_cursor_monotone (s : SysState) (ops : List SysOp) :
    (∃ t, s.app.flashcards ++ t = (sysRun s ops).app.flashcards) ∧
    s.app.flashcards.length ≤ (sysRun s ops).app.flashcards.length ∧
    (sysRun s ops).cursor = s.cursor + ops.countP isAdvance ∧
    s.cursor ≤ (sysRun s ops).cursor := by
  obtain ⟨⟨t, ht⟩, hc⟩ := sysRun_extends ops s
  refine ⟨⟨t, ht⟩, ?_, hc, ?_⟩
  · rw [← ht]
    simp
  · rw [hc]
    exact Nat.le_add_right _ _

/-- C8: the document text placed into the Generator prompt is the excerpt
`bookContent.substring(0, 32000)`: an initial segment of the document of
length at most the fixed 32000-character budget, and equal to the whole
document whenever the document fits the budget. -/
theorem C8_promptExcerpt_bounded (d : List Char) :
    (∃ t, promptExcerpt d ++ t = d) ∧
    (promptExcerpt d).length ≤ MAX_PROMPT_CHARS ∧
    (d.length ≤ MAX_PROMPT_CHARS → promptExcerpt d = d) := by
  refine ⟨⟨d.drop MAX_PROMPT_CHARS, List.take_append_drop _ d⟩, ?_, ?_⟩
  · exact List.length_take_le _ d
  · intro h
    exact List.take_of_length_le h

/-- Witness for C8 at a concrete short document. -/
theorem C8_witness : promptExcerpt ['a', 'b'] = ['a', 'b'] :=
  (C8_promptExcerpt_bounded ['a', 'b']).2.2 (by decide)

/-- C4: a trigger of `requestCard` while a request is already loading, or
while no document is loaded, is a no-op (the state, hence also the
network-call count, is unchanged); and from an idle state with a document
loaded, any burst of `n + 1` consecutive triggers produces the same state as a
single trigger and exactly one network call. -/
theorem C4_request_dedup (s : AppState) :
    (s.isLoading = true → handleNewCardRequestStart s = s) ∧
    (jsTruthy s.bookContent = false → handleNewCardRequestStart s = s) ∧
    (jsTruthy s.bookContent = true → s.isLoading = false → ∀ n : Nat,
      handleNewCardRequestStart^[n + 1] s = handleNewCardRequestStart s ∧
      (handleNewCardRequestStart^[n + 1] s).netCalls = s.netCalls + 1) := by
  refine ⟨start_of_loading s, start_of_noDoc s, ?_⟩
  intro hb hl n
  have hspec := start_spec s hb hl
  have hload : (handleNewCardRequestStart s).isLoading = true := by
    rw [hspec]
  have hfix : handleNewCardRequestStart (handleNewCardRequestStart s)
      = handleNewCardRequestStart s := start_of_loading _ hload
  have hiter : handleNewCardRequestStart^[n + 1] s = handleNewCardRequestStart s := by
    rw [Function.iterate_succ_apply]
    exact Function.iterate_fixed hfix n
  refine ⟨hiter, ?_⟩
  rw [hiter, hspec]

/-- Witness for C4: three consecutive triggers from an idle loaded state give
the same state and the same single network call as one trigger. -/
theorem C4_witness :
    handleNewCardRequestStart^[3] baseApp = handleNewCardRequestStart baseApp ∧
    (handleNewCardRequestStart^[3] baseApp).netCalls = baseApp.netCalls + 1 :=
  (C4_request_dedup baseApp).2.2 (by decide) (by decide) 2

/-- C10: `getDynamicCardStyles` is total — for a mood in the map it returns
the entry of that mood; for an absent mood, the empty string, or any string outside
the six-value enumeration it returns the `serious` default style. -/
theorem C10_getDynamicCardStyles_total :
    (∀ m st, moodStyles m = some st → getDynamicCardStyles (some m) = st) ∧
    getDynamicCardStyles none = defaultStyle ∧
    getDynamicCardStyles (some "") = defaultStyle ∧
    (∀ m, m ∉ moodEnumeration → getDynamicCardStyles (some m) = defaultStyle) ∧
    moodStyles "serious" = some defaultStyle := by
  refine ⟨?_, by decide, by decide, ?_, by decide⟩
  · intro m st h
    have hm : m ≠ "" := by
      intro he
      rw [he] at h
      simp [moodStyles] at h
    simp [getDynamicCardStyles, jsTruthy, hm, h]
  · intro m hm
    simp only [moodEnumeration, List.mem_cons, List.not_mem_nil, or_false] at hm
    push_neg at hm
    obtain ⟨h1, h2, h3, h4, h5, h6⟩ := hm
    by_cases he : m = ""
    · rw [he]
      decide
    · simp [getDynamicCardStyles, jsTruthy, he, moodStyles, h1, h2, h3, h4, h5, h6]

/-- Witness for C10: a mood of the enumeration gets its own entry, and an
unrecognized mood falls back to the default style. -/
theorem C10_witness :
    getDynamicCardStyles (some "calm") =
      { background := "bg-gradient-to-br from-teal-500 to-cyan-600"
        badgeColor := "bg-cyan-400/20 text-cyan-200" } ∧
    getDynamicCardStyles (some "playful") = defaultStyle :=
  ⟨C10_getDynamicCardStyles_total.1 "calm" _ (by decide),
   C10_getDynamicCardStyles_total.2.2.2.1 "playful" (by decide)⟩


/-- Explicit form of the completion step on an incomplete payload. -/
theorem complete_incomplete_spec (s : AppState) (data : Option NewCardData)
    (h : isCompleteCard data = false) :
    handleNewCardRequestComplete s (GenResult.ok data) =
      { s with error := some incompleteErrorMessage, isLoading := false, pending := none } := by
  cases data with
  | none => rfl
  | some d => simp [handleNewCardRequestComplete, h]

/-- Explicit form of the completion step on a rejected promise. -/
theorem complete_err_spec (s : AppState) (msg : String) :
    handleNewCardRequestComplete s (GenResult.err msg) =
      { s with error := some msg, isLoading := false, pending := none } := rfl

/-- C5: a full `requestCard` cycle from an idle state with a loaded document
always terminates idle — the loading flag is cleared and no request is left
pending — and the cursor is untouched; on a complete successful payload
exactly one card is appended and the error is cleared, while on a rejected
promise or an incomplete payload the error is set to the corresponding
user-facing message and the cards are unchanged. -/
theorem C5_request_always_terminates_idle (s : SysState) (resp : GenResult)
    (hb : jsTruthy s.app.bookContent = true) (hl : s.app.isLoading = false) :
    (sysRun s [SysOp.reqStart, SysOp.reqComplete resp]).app.isLoading = false ∧
    (sysRun s [SysOp.reqStart, SysOp.reqComplete resp]).app.pending = none ∧
    (sysRun s [SysOp.reqStart, SysOp.reqComplete resp]).cursor = s.cursor ∧
    (∀ d, resp = GenResult.ok (some d) → isCompleteCard (some d) = true →
      (sysRun s [SysOp.reqStart, SysOp.reqComplete resp]).app.flashcards
          = s.app.flashcards ++ [mkFlashcard s.app.nextId d] ∧
      (sysRun s [SysOp.reqStart, SysOp.reqComplete resp]).app.error = none) ∧
    (∀ msg, resp = GenResult.err msg →
      (sysRun s [SysOp.reqStart, SysOp.reqComplete resp]).app.error = some msg ∧
      (sysRun s [SysOp.reqStart, SysOp.reqComplete resp]).app.flashcards = s.app.flashcards) ∧
    (∀ data, resp = GenResult.ok data → isCompleteCard data = false →
      (sysRun s [SysOp.reqStart, SysOp.reqComplete resp]).app.error = some incompleteErrorMessage ∧
      (sysRun s [SysOp.reqStart, SysOp.reqComplete resp]).app.flashcards = s.app.flashcards) := by
  have hrun : sysRun s [SysOp.reqStart, SysOp.reqComplete resp]
      = { app := handleNewCardRequestComplete (handleNewCardRequestStart s.app) resp
          cursor := s.cursor } := rfl
  cases resp with
  | err msg =>
    rw [hrun, complete_err_spec, start_spec s.app hb hl]
    refine ⟨rfl, rfl, rfl, ?_, ?_, ?_⟩
    · intro d h
      cases h
    · intro m h
      cases h
      exact ⟨rfl, rfl⟩
    · intro data h
      cases h
  | ok data =>
    cases hcc : isCompleteCard data with
    | false =>
      rw [hrun, complete_incomplete_spec _ _ hcc, start_spec s.app hb hl]
      refine ⟨rfl, rfl, rfl, ?_, ?_, ?_⟩
      · intro d h hcomp
        cases h
        rw [hcomp] at hcc
        exact Bool.noConfusion hcc
      · intro m h
        cases h
      · intro data2 h _
        cases h
        exact ⟨rfl, rfl⟩
    | true =>
      cases data with
      | none => exact Bool.noConfusion hcc
      | some d =>
        rw [hrun, complete_ok_spec _ _ hcc, start_spec s.app hb hl]
        refine ⟨rfl, rfl, rfl, ?_, ?_, ?_⟩
        · intro d2 h _
          cases h
          exact ⟨rfl, rfl⟩
        · intro m h
          cases h
        · intro data2 h hcomp
          cases h
          rw [hcomp] at hcc
          exact Bool.noConfusion hcc

/-- Witness for C5: one failed cycle from the base state ends idle with the
error recorded and no card appended. -/
theorem C5_witness :
    (sysRun baseSys [SysOp.reqStart, SysOp.reqComplete (GenResult.err "boom")]).app.isLoading
        = false ∧
    (sysRun baseSys [SysOp.reqStart, SysOp.reqComplete (GenResult.err "boom")]).app.error
        = some "boom" ∧
    (sysRun baseSys [SysOp.reqStart, SysOp.reqComplete (GenResult.err "boom")]).app.flashcards
        = baseSys.app.flashcards := by
  have h := C5_request_always_terminates_idle baseSys (GenResult.err "boom")
      (by decide) (by decide)
  obtain ⟨he, hf⟩ := h.2.2.2.2.1 "boom" rfl
  exact ⟨h.1, he, hf⟩

/-- Over a run of successful generation cycles, the book is unchanged, the
state ends idle, and the card titles are exactly the previous titles followed
by the titles of the generated payloads, in order. -/
theorem sessionRun_spec (ds : List NewCardData) : ∀ s : SysState,
    jsTruthy s.app.bookContent = true → s.app.isLoading = false →
    (∀ d ∈ ds, isCompleteCard (some d) = true) →
    (sessionRun s ds).app.bookContent = s.app.bookContent ∧
    (sessionRun s ds).app.isLoading = false ∧
    (sessionRun s ds).app.flashcards.map (fun c => c.title)
      = s.app.flashcards.map (fun c => c.title) ++ ds.map (fun d => d.title.getD "") := by
  induction ds with
  | nil =>
    intro s _ hl _
    exact ⟨rfl, hl, by simp [sessionRun]⟩
  | cons d ds ih =>
    intro s hb hl hds
    have hd : isCompleteCard (some d) = true := hds d (List.mem_cons_self d ds)
    have hs1 : (sysStep (sysStep s SysOp.reqStart)
        (SysOp.reqComplete (GenResult.ok (some d)))).app
        = { s.app with
            flashcards := s.app.flashcards ++ [mkFlashcard s.app.nextId d]
            nextId := s.app.nextId + 1
            isLoading := false
            error := none
            pending := none
            netCalls := s.app.netCalls + 1 } := by
      show handleNewCardRequestComplete (handleNewCardRequestStart s.app)
          (GenResult.ok (some d)) = _
      rw [start_spec s.app hb hl, complete_ok_spec _ _ hd]
    have hb1 : jsTruthy (sysStep (sysStep s SysOp.reqStart)
        (SysOp.reqComplete (GenResult.ok (some d)))).app.bookContent = true := by
      rw [hs1]
      exact hb
    have hl1 : (sysStep (sysStep s SysOp.reqStart)
        (SysOp.reqComplete (GenResult.ok (some d)))).app.isLoading = false := by
      rw [hs1]
    obtain ⟨hbb, hll, hmap⟩ := ih _ hb1 hl1 (fun d2 hd2 => hds d2 (List.mem_cons_of_mem _ hd2))
    refine ⟨?_, hll, ?_⟩
    · show (sessionRun (sysStep (sysStep s SysOp.reqStart)
          (SysOp.reqComplete (GenResult.ok (some d)))) ds).app.bookContent
          = s.app.bookContent
      rw [hbb, hs1]
    · show (sessionRun (sysStep (sysStep s SysOp.reqStart)
          (SysOp.reqComplete (GenResult.ok (some d)))) ds).app.flashcards.map (fun c => c.title)
          = _
      rw [hmap, hs1]
      simp [mkFlashcard]

/-- C6: in a document session started with an empty deck, the k-th generation
request passes as exclusion list exactly the titles of the k-1 cards generated
so far for that document, in generation order; in particular the first request
passes the empty list. -/
theorem C6_exclusion_list_complete (book : String) (s : SysState)
    (ds : List NewCardData) (k : Nat)
    (hbook : s.app.bookContent = some book) (hne : book ≠ "")
    (hfc : s.app.flashcards = []) (hl : s.app.isLoading = false)
    (hds : ∀ d ∈ ds, isCompleteCard (some d) = true) :
    (handleNewCardRequestStart (sessionRun s (ds.take k)).app).pending
      = some { doc := book
               excludedTitles := (ds.take k).map (fun d => d.title.getD "") } := by
  have htr : jsTruthy s.app.bookContent = true := by
    rw [hbook]
    simp [jsTruthy, hne]
  have hds' : ∀ d ∈ ds.take k, isCompleteCard (some d) = true :=
    fun d hd => hds d (List.take_subset k ds hd)
  obtain ⟨hbb, hll, hmap⟩ := sessionRun_spec (ds.take k) s htr hl hds'
  have htr2 : jsTruthy (sessionRun s (ds.take k)).app.bookContent = true := by
    rw [hbb]
    exact htr
  rw [start_spec _ htr2 hll]
  simp only [Option.some.injEq]
  have hdoc : (sessionRun s (ds.take k)).app.bookContent.getD "" = book := by
    rw [hbb, hbook]
    rfl
  have hterm : (sessionRun s (ds.take k)).app.flashcards.map (fun c => c.title)
      = (ds.take k).map (fun d => d.title.getD "") := by
    rw [hmap, hfc]
    simp
  rw [hdoc, hterm]

/-- Witness for C6: after one successful cycle from the base state the second
request carries exactly the first generated title. -/
theorem C6_witness :
    (handleNewCardRequestStart (sessionRun baseSys ([sampleCardA, sampleCardB].take 1)).app).pending
      = some { doc := "doc", excludedTitles := ["T1"] } :=
  C6_exclusion_list_complete "doc" baseSys [sampleCardA, sampleCardB] 1
    rfl (by decide) rfl rfl (by decide)


/-- C1 counterexample: a response with all five fields present and
`mood = "playful"` — a mood outside the fixed enumeration — passes the
completeness check and IS appended to the deck, contrary to the claim that no
card is appended for such a response. -/
theorem C1_counterexample :
    ("playful" ∈ moodEnumeration → False) ∧
    moodStyles "playful" = none ∧
    isCompleteCard (some playfulCardData) = true ∧
    (handleNewCardRequestComplete (handleNewCardRequestStart baseApp)
        (GenResult.ok (some playfulCardData))).flashcards.length
      = baseApp.flashcards.length + 1 ∧
    (handleNewCardRequestComplete (handleNewCardRequestStart baseApp)
        (GenResult.ok (some playfulCardData))).flashcards.map (fun c => c.mood)
      = ["playful"] := by
  decide

/-- C1 as amended: `requestCard` validates only presence and non-emptiness of
the five fields — a response missing any field (or carrying an empty one) is
treated as incomplete, the incompleteness error is stored and no card is
appended; but the mood value is never checked against the enumeration, so any
response with five non-empty fields is appended, whatever its mood. -/
theorem C1_incomplete_rejected_mood_unchecked (s : AppState) (data : Option NewCardData)
    (hb : jsTruthy s.bookContent = true) (hl : s.isLoading = false) :
    (isCompleteCard data = false →
      (handleNewCardRequestComplete (handleNewCardRequestStart s)
          (GenResult.ok data)).flashcards = s.flashcards ∧
      (handleNewCardRequestComplete (handleNewCardRequestStart s)
          (GenResult.ok data)).error = some incompleteErrorMessage) ∧
    (isCompleteCard data = true →
      (handleNewCardRequestComplete (handleNewCardRequestStart s)
          (GenResult.ok data)).flashcards.length = s.flashcards.length + 1) := by
  constructor
  · intro h
    rw [complete_incomplete_spec _ _ h, start_spec s hb hl]
    exact ⟨rfl, rfl⟩
  · intro h
    cases data with
    | none => exact Bool.noConfusion h
    | some d =>
      rw [complete_ok_spec _ _ h, start_spec s hb hl]
      simp

/-- Witness for the amended C1: a response with an absent icon is rejected
without appending, and the complete playful response is appended. -/
theorem C1_witness :
    (handleNewCardRequestComplete (handleNewCardRequestStart baseApp)
        (GenResult.ok (some { title := some "T", content := some "C"
                              category := some "K", mood := some "calm"
                              icon := none }))).flashcards = baseApp.flashcards ∧
    (handleNewCardRequestComplete (handleNewCardRequestStart baseApp)
        (GenResult.ok (some playfulCardData))).flashcards.length
      = baseApp.flashcards.length + 1 :=
  ⟨((C1_incomplete_rejected_mood_unchecked baseApp
      (some { title := some "T", content := some "C", category := some "K"
              mood := some "calm", icon := none })
      (by decide) (by decide)).1 (by decide)).1,
   (C1_incomplete_rejected_mood_unchecked baseApp (some playfulCardData)
      (by decide) (by decide)).2 (by decide)⟩

/-- C2: evaluation of the stale-response trace. Upload a book, start a
generation request (so a request is in flight), then reset: the deck is
cleared and no document remains loaded. When the in-flight request then
resolves successfully, its card IS appended to the new, cleared cards list —
the source checks no document identity or session token on completion — so
the stale card appears in a deck that should have stayed empty. -/
theorem C2_stale_response_is_appended :
    ((handleNewCardRequestStart (handleFileUpload baseApp "Book A")).pending.isSome = true) ∧
    ((handleReset (handleNewCardRequestStart (handleFileUpload baseApp "Book A"))
        true).flashcards = []) ∧
    ((handleReset (handleNewCardRequestStart (handleFileUpload baseApp "Book A"))
        true).bookContent = none) ∧
    ((handleNewCardRequestComplete
        (handleReset (handleNewCardRequestStart (handleFileUpload baseApp "Book A")) true)
        (GenResult.ok (some sampleCardA))).flashcards.length = 1) ∧
    ((handleNewCardRequestComplete
        (handleReset (handleNewCardRequestStart (handleFileUpload baseApp "Book A")) true)
        (GenResult.ok (some sampleCardA))).bookContent = none) := by
  decide

/-- C3: evaluation of the automatic-retry behaviour after a failure. After the
first request fails, the resulting state has the error set, loading cleared
and an empty deck — and the auto-generation effect condition of `App` holds
again, so the effect immediately issues a new network request with no user
action. Likewise, after a replenishment failure with one card and the cursor
past it, the deck replenishment effect condition holds again, and invoking the
generation trigger issues a new network call. -/
theorem C3_failure_is_retried_automatically :
    ((handleNewCardRequestComplete (handleNewCardRequestStart baseApp)
        (GenResult.err "Service unavailable")).error = some "Service unavailable") ∧
    ((handleNewCardRequestComplete (handleNewCardRequestStart baseApp)
        (GenResult.err "Service unavailable")).isLoading = false) ∧
    (appEffectCond (handleNewCardRequestComplete (handleNewCardRequestStart baseApp)
        (GenResult.err "Service unavailable")) = true) ∧
    ((appEffect (handleNewCardRequestComplete (handleNewCardRequestStart baseApp)
        (GenResult.err "Service unavailable"))).netCalls
      = (handleNewCardRequestComplete (handleNewCardRequestStart baseApp)
        (GenResult.err "Service unavailable")).netCalls + 1) ∧
    ((appEffect (handleNewCardRequestComplete (handleNewCardRequestStart baseApp)
        (GenResult.err "Service unavailable"))).isLoading = true) ∧
    (deckEffectCond (handleNewCardRequestComplete
        (handleNewCardRequestStart (handleNewCardRequestComplete
          (handleNewCardRequestStart baseApp) (GenResult.ok (some sampleCardA))))
        (GenResult.err "Service unavailable")) 1 = true) ∧
    ((handleNewCardRequestStart (handleNewCardRequestComplete
        (handleNewCardRequestStart (handleNewCardRequestComplete
          (handleNewCardRequestStart baseApp) (GenResult.ok (some sampleCardA))))
        (GenResult.err "Service unavailable"))).netCalls
      = (handleNewCardRequestComplete
        (handleNewCardRequestStart (handleNewCardRequestComplete
          (handleNewCardRequestStart baseApp) (GenResult.ok (some sampleCardA))))
        (GenResult.err "Service unavailable")).netCalls + 1) := by
  decide

/-- C9 counterexample: a file named `txt` has no extension (its name contains
no dot), so under the claim its extraction must fail with the
unsupported-format error; but `parseFile` computes the file type from the last
dot-separated name component, which here is the whole name, and dispatches to
the plain-text parser instead of failing. -/
theorem C9_counterexample :
    specFileExtension "txt" = none ∧
    (∀ e ∈ supportedFileTypes, specFileExtension "txt" ≠ some e) ∧
    parseFileDispatch "txt" = ParseAction.txtParse ∧
    invokesParser (parseFileDispatch "txt") = true := by
  decide

/-- If the specification-style extension of a name exists, it coincides with
the file type the source computes. -/
theorem specFileExtension_eq_fileTypeOf (name : String) (e : String)
    (h : specFileExtension name = some e) : fileTypeOf name = e := by
  unfold specFileExtension at h
  split at h
  · exact (Option.some.injEq _ _).mp h
  · exact Option.noConfusion h

/-- C9 as amended: for every file whose name carries an extension (contains a
dot) that is, case-insensitively, not one of txt/pdf/docx/md, extraction fails
with the unsupported-format error carrying that extension and attempts no
parsing (hence no parser-library loading and no network activity); each of the
four supported extensions dispatches to its corresponding parser. Filenames
without a dot are treated as if the whole lowercased name were the extension. -/
theorem C9_unsupported_extension_rejected (name : String) :
    (∀ e, specFileExtension name = some e → e ∉ supportedFileTypes →
      parseFileDispatch name = ParseAction.unsupported e ∧
      invokesParser (parseFileDispatch name) = false) ∧
    (fileTypeOf name ∉ supportedFileTypes →
      parseFileDispatch name = ParseAction.unsupported (fileTypeOf name) ∧
      invokesParser (parseFileDispatch name) = false) ∧
    (specFileExtension name = some "txt" → parseFileDispatch name = ParseAction.txtParse) ∧
    (specFileExtension name = some "pdf" → parseFileDispatch name = ParseAction.pdfParse) ∧
    (specFileExtension name = some "docx" → parseFileDispatch name = ParseAction.docxParse) ∧
    (specFileExtension name = some "md" → parseFileDispatch name = ParseAction.mdParse) := by
  have hmain : fileTypeOf name ∉ supportedFileTypes →
      parseFileDispatch name = ParseAction.unsupported (fileTypeOf name) ∧
      invokesParser (parseFileDispatch name) = false := by
    intro hm
    simp only [supportedFileTypes, List.mem_cons, List.not_mem_nil, or_false] at hm
    push_neg at hm
    obtain ⟨h1, h2, h3, h4⟩ := hm
    constructor
    · simp [parseFileDispatch, h1, h2, h3, h4]
    · simp [parseFileDispatch, h1, h2, h3, h4, invokesParser]
  refine ⟨?_, hmain, ?_, ?_, ?_, ?_⟩
  · intro e he hm
    rw [← specFileExtension_eq_fileTypeOf name e he] at hm ⊢
    exact hmain hm
  · intro h
    simp [parseFileDispatch, specFileExtension_eq_fileTypeOf name _ h]
  · intro h
    simp [parseFileDispatch, specFileExtension_eq_fileTypeOf name _ h]
  · intro h
    simp [parseFileDispatch, specFileExtension_eq_fileTypeOf name _ h]
  · intro h
    simp [parseFileDispatch, specFileExtension_eq_fileTypeOf name _ h]

/-- Witness for the amended C9: a `.csv` upload is rejected with the
unsupported-format error carrying `csv` and no parser runs; a `.TXT` upload
dispatches to the plain-text parser. -/
theorem C9_witness :
    parseFileDispatch "data.csv" = ParseAction.unsupported "csv" ∧
    invokesParser (parseFileDispatch "data.csv") = false ∧
    parseFileDispatch "Notes.TXT" = ParseAction.txtParse :=
  ⟨((C9_unsupported_extension_rejected "data.csv").1 "csv" (by decide) (by decide)).1,
   ((C9_unsupported_extension_rejected "data.csv").1 "csv" (by decide) (by decide)).2,
   (C9_unsupported_extension_rejected "Notes.TXT").2.2.1 (by decide)⟩

end AIFlashcards
